import Mathlib

/-!
Shallow embedding of the Aura_Health multi-service pipeline
(document-ingestion → document-parsing → information-structuring →
risk-prediction), following the Python sources under backend/.

Databases are modelled as lists of rows; each service's
query-then-update-or-insert logic is embedded as a recursion over the list
that updates the first matching row (SQLAlchemy `.first()`), else appends.
Network effects (notifying the ingestion service, triggering the next
stage) are modelled by explicit outcome parameters and an event list of
attempted status notifications.
-/

namespace AuraHealth

/-- Outcome of a single HTTP call made by a stage: either a response with a
status code, or a raised exception / timeout. -/
inductive HttpOutcome where
  | ok (code : Nat)
  | exn (msg : String)
deriving DecidableEq

/-- A status notification sent to the document-ingestion service by
`update_document_status` of a downstream stage: one POST to
`/documents/update-status-internal` (appending a `ProcessingStatus` row)
followed by one PATCH to `/documents/{id}/status-internal` (setting the
document's coarse status). -/
structure NotifyEvent where
  document_id : String
  service_name : String
  processing_status : String
  doc_status : String
  error_message : Option String
deriving DecidableEq

/-- Generic query-then-update-or-insert on a list of rows: update the first
row matching `p` with `upd`, else append `new` (models the
`query(...).filter(...).first()` / update-or-`db.add` pattern). -/
def upsertFirst (p : α → Bool) (upd : α → α) (new : α) : List α → List α
  | [] => [new]
  | x :: xs => if p x then upd x :: xs else x :: upsertFirst p upd new xs

/-- Update the first row matching `p` in place; no insertion when absent. -/
def updateFirst (p : α → Bool) (upd : α → α) : List α → List α
  | [] => []
  | x :: xs => if p x then upd x :: xs else x :: updateFirst p upd xs

/-! ## Document-parsing service (backend/document-parsing) -/

/-- Row of the `parsing_results` table (app/models/database.py). -/
structure ParsingResult where
  document_id : String
  extracted_text : String
  status : String
  progress : Nat
  error_message : Option String
deriving DecidableEq

/-- `db.query(ParsingResult).filter(ParsingResult.document_id == document_id).first()` -/
def findParsing (db : List ParsingResult) (d : String) : Option ParsingResult :=
  db.find? (fun r => r.document_id == d)

/-- `DocumentParsingService.update_parsing_progress`: upsert of status and
progress for the document's row; a freshly created row has empty text. -/
def update_parsing_progress (d status : String) (progress : Nat)
    (db : List ParsingResult) : List ParsingResult :=
  upsertFirst (fun r => r.document_id == d)
    (fun r => { r with status := status, progress := progress })
    { document_id := d, extracted_text := "", status := status,
      progress := progress, error_message := none } db

/-- Final success write of `parse_document`: upsert to
status `completed`, progress 100, the extracted text, and no error. -/
def upsertParsingCompleted (d text : String)
    (db : List ParsingResult) : List ParsingResult :=
  upsertFirst (fun r => r.document_id == d)
    (fun r =>
      { r with extracted_text := text, status := "completed",
               progress := 100, error_message := none })
    { document_id := d, extracted_text := text, status := "completed",
      progress := 100, error_message := none } db

/-- Failure write of `parse_document`'s `except` branch: upsert to
status `failed`, progress 0, empty text and the error message. -/
def upsertParsingFailed (d emsg : String)
    (db : List ParsingResult) : List ParsingResult :=
  upsertFirst (fun r => r.document_id == d)
    (fun r =>
      { r with extracted_text := "", status := "failed",
               progress := 0, error_message := some emsg })
    { document_id := d, extracted_text := "", status := "failed",
      progress := 0, error_message := some emsg } db

/-- `update_document_status` of the parsing / structuring services: sends
the processing status and the new coarse document status to the ingestion
service inside a try/except that swallows any network failure, so it never
raises; an unreachable ingestion service simply loses the notification. -/
def send_update_document_status (delivery : HttpOutcome)
    (docId service doc_status processing_status : String)
    (err : Option String) : Except String (List NotifyEvent) :=
  match delivery with
  | .ok _ => .ok [{ document_id := docId, service_name := service,
                    processing_status := processing_status,
                    doc_status := doc_status, error_message := err }]
  | .exn _ => .ok []

/-- `DocumentParsingService.trigger_structuring_service`: POSTs to the
structuring service's internal route; a non-200 response is only logged and
any exception is caught and logged, so the call never raises. -/
def trigger_structuring_service (outcome : HttpOutcome) : Except String Unit :=
  match outcome with
  | .ok _code => .ok ()
  | .exn _msg => .ok ()

/-- `DocumentParsingService.parse_document`.
`extraction` abstracts everything inside the `try` that can raise before
the result row is written (missing file, docling conversion failure, text
read failure): `.ok text` is the extracted text, `.error e` a raised
exception. `steps` are the interim `update_parsing_progress` upserts that
executed. Returns the new table, the notifications attempted against the
ingestion service, and either the persisted row (`.ok`) or the re-raised
exception (`.error`) — on failure the code persists the failed row,
notifies ingestion with document status `uploaded`, then `raise e`. -/
def parse_document (d : String) (extraction : Except String String)
    (steps : List (String × Nat)) (notifyDelivery triggerOutcome : HttpOutcome)
    (db : List ParsingResult) :
    List ParsingResult × List NotifyEvent × Except String ParsingResult :=
  match extraction with
  | .ok text =>
    let db1 := steps.foldl (fun acc s => update_parsing_progress d s.1 s.2 acc) db
    let db2 := upsertParsingCompleted d text db1
    let row := (findParsing db2 d).getD
      { document_id := d, extracted_text := text, status := "completed",
        progress := 100, error_message := none }
    match send_update_document_status notifyDelivery d "document_parsing"
        "parsed" "completed" none with
    | .error e =>
      -- unreachable: notification is best-effort and never raises
      (upsertParsingFailed d e db2, [], .error e)
    | .ok events =>
      match trigger_structuring_service triggerOutcome with
      | .error e =>
        -- unreachable: the trigger swallows every downstream failure
        (upsertParsingFailed d e db2, events, .error e)
      | .ok _ => (db2, events, .ok row)
  | .error e =>
    let db1 := steps.foldl (fun acc s => update_parsing_progress d s.1 s.2 acc) db
    let db2 := upsertParsingFailed d e db1
    let events := (send_update_document_status notifyDelivery d
      "document_parsing" "uploaded" "failed" (some e)).toOption.getD []
    (db2, events, .error e)

/-- Response payload of `GET /parsing/progress/{document_id}`. -/
structure ProgressResponse where
  document_id : String
  status : String
  progress : Nat
  message : String
  error_message : Option String
deriving DecidableEq

/-- `get_progress_message` (app/routes/parsing.py). -/
def get_progress_message (status : String) (progress : Nat) : String :=
  if status == "failed" then "Parsing failed"
  else if status == "completed" then "Parsing completed successfully"
  else if progress < 20 then "Initializing parser..."
  else if progress < 40 then "Loading document..."
  else if progress < 70 then "Extracting text from PDF..."
  else if progress < 90 then "Processing extracted content..."
  else "Finalizing..."

/-- `get_parsing_progress` route: a missing row yields a 200 payload with
status `pending` and progress 0 rather than a 404. -/
def get_parsing_progress (db : List ParsingResult) (d : String) : ProgressResponse :=
  match findParsing db d with
  | none =>
    { document_id := d, status := "pending", progress := 0,
      message := "Waiting to start parsing", error_message := none }
  | some r =>
    { document_id := d, status := r.status, progress := r.progress,
      message := get_progress_message r.status r.progress,
      error_message := r.error_message }

/-! ## Information-structuring service (backend/information-structuring) -/

/-- Python's substring test `needle in hay` on strings. -/
def strContains (hay needle : String) : Prop :=
  needle.toList <:+: hay.toList

instance (hay needle : String) : Decidable (strContains hay needle) := by
  unfold strContains; infer_instance

/-- Python's `str.lower()` (ASCII case folding suffices for the texts the
service matches on). -/
def pyLower (s : String) : String :=
  String.mk (s.toList.map Char.toLower)

/-- The `StructuredData` pydantic schema (app/models/schemas.py): a fixed
set of 20 clinical fields, each defaulting to the sentinel `"unknown"`. -/
structure StructuredData where
  indication : String := "unknown"
  family_history_breast_pathology : String := "unknown"
  clinical_exam_result : String := "unknown"
  skin_abnormalities : String := "unknown"
  nipple_abnormalities : String := "unknown"
  gland_density : String := "unknown"
  calcifications_present : String := "unknown"
  architectural_distortion : String := "unknown"
  retracted_areas : String := "unknown"
  suspicious_lymph_nodes : String := "unknown"
  evaluation_possible : String := "unknown"
  findings_summary : String := "unknown"
  acr_density_type : String := "unknown"
  birads_score : String := "unknown"
  followup_recommended : String := "unknown"
  recommendation_text : String := "unknown"
  lmp : String := "unknown"
  hormonal_therapy : String := "unknown"
  age : String := "unknown"
  children : String := "unknown"
deriving DecidableEq

/-- `StructuredData.dict()`: the field dictionary, in declaration order. -/
def StructuredData.dict (s : StructuredData) : List (String × String) :=
  [("indication", s.indication),
   ("family_history_breast_pathology", s.family_history_breast_pathology),
   ("clinical_exam_result", s.clinical_exam_result),
   ("skin_abnormalities", s.skin_abnormalities),
   ("nipple_abnormalities", s.nipple_abnormalities),
   ("gland_density", s.gland_density),
   ("calcifications_present", s.calcifications_present),
   ("architectural_distortion", s.architectural_distortion),
   ("retracted_areas", s.retracted_areas),
   ("suspicious_lymph_nodes", s.suspicious_lymph_nodes),
   ("evaluation_possible", s.evaluation_possible),
   ("findings_summary", s.findings_summary),
   ("acr_density_type", s.acr_density_type),
   ("birads_score", s.birads_score),
   ("followup_recommended", s.followup_recommended),
   ("recommendation_text", s.recommendation_text),
   ("lmp", s.lmp),
   ("hormonal_therapy", s.hormonal_therapy),
   ("age", s.age),
   ("children", s.children)]

/-- First `if` block of the mock extractor: routine screening indication. -/
def mockStepIndication (text_lower : String) (m : StructuredData) : StructuredData :=
  if strContains text_lower "routine" ∧ strContains text_lower "screening" then
    { m with indication := "routine screening" }
  else m

/-- Second `if` block: the BI-RADS score, with the digit membership checks
done against the original (non-lowercased) text, as in the source. -/
def mockStepBirads (text text_lower : String) (m : StructuredData) : StructuredData :=
  if strContains text_lower "bi-rads" ∨ strContains text_lower "birads" then
    if strContains text "2" then { m with birads_score := "2" }
    else if strContains text "3" then { m with birads_score := "3" }
    else if strContains text "4" then { m with birads_score := "4" }
    else m
  else m

/-- Third `if` block: gland density / ACR type. -/
def mockStepDensity (text_lower : String) (m : StructuredData) : StructuredData :=
  if strContains text_lower "dense" then
    if strContains text_lower "heterogeneously" then
      { m with acr_density_type := "C", gland_density := "heterogeneously dense" }
    else if strContains text_lower "extremely" then
      { m with acr_density_type := "D", gland_density := "extremely dense" }
    else m
  else m

/-- Fourth `if` block: follow-up recommendation. -/
def mockStepFollowup (text_lower : String) (m : StructuredData) : StructuredData :=
  if strContains text_lower "follow" ∧ strContains text_lower "up" then
    { m with followup_recommended := "yes",
             recommendation_text := "Follow-up recommended" }
  else m

/-- Fifth `if` block: "no suspicious" findings summary. -/
def mockStepFindings (text_lower : String) (m : StructuredData) : StructuredData :=
  if strContains text_lower "no suspicious" then
    { m with findings_summary := "No suspicious findings",
             calcifications_present := "no", architectural_distortion := "none" }
  else m

/-- `InformationStructuringService.create_mock_structured_data` — the
second, overriding definition of that method in the class body (the one in
effect at runtime): starts from the all-"unknown" dict and applies the
source's five rule-based `if` blocks in order. -/
def create_mock_structured_data (text : String) : StructuredData :=
  let text_lower := pyLower text
  mockStepFindings text_lower
    (mockStepFollowup text_lower
      (mockStepDensity text_lower
        (mockStepBirads text text_lower
          (mockStepIndication text_lower {}))))

/-- Outcome of the Gemini API interaction inside
`extract_structured_data`'s `try` block. -/
inductive LLMOutcome where
  | parsedOk (sd : StructuredData)
  | non200 (code : Nat)
  | noCandidates
  | badJson (msg : String)
  | exn (msg : String)
deriving DecidableEq

/-- `InformationStructuringService.extract_structured_data`: with no API
key configured it goes straight to the rule-based mock extractor; with a
key, every API failure mode (non-200, missing candidates, malformed JSON,
any raised exception) also falls back to the mock extractor. -/
def extract_structured_data (api_key : Option String) (llm : LLMOutcome)
    (text : String) : StructuredData :=
  match api_key with
  | none => create_mock_structured_data text
  | some _ =>
    match llm with
    | .parsedOk sd => sd
    | .non200 _ => create_mock_structured_data text
    | .noCandidates => create_mock_structured_data text
    | .badJson _ => create_mock_structured_data text
    | .exn _ => create_mock_structured_data text

/-- Python's `round` at a half-integer rounds to even (banker's rounding). -/
def roundHalfEven (q : ℚ) : ℤ :=
  let f := Int.floor q
  let r := q - f
  if r < 1/2 then f
  else if 1/2 < r then f + 1
  else if f % 2 = 0 then f else f + 1

/-- Python's `round(x, 2)`. -/
def pythonRound2 (q : ℚ) : ℚ :=
  (roundHalfEven (q * 100) : ℚ) / 100

/-- `InformationStructuringService.calculate_confidence_score`. -/
def calculate_confidence_score (s : StructuredData) : ℚ :=
  let fields := s.dict
  let total_fields : ℕ := fields.length
  let unknown_fields : ℕ := (fields.filter (fun p => p.2 == "unknown")).length
  let confidence : ℚ := ((total_fields : ℚ) - (unknown_fields : ℚ)) / (total_fields : ℚ)
  pythonRound2 confidence

/-- Number of fields of a `StructuredData` equal to the `"unknown"`
sentinel (the spec's K). -/
def unknownCount (s : StructuredData) : ℕ :=
  (s.dict.filter (fun p => p.2 == "unknown")).length

/-- Row of the `structuring_results` table (app/models/database.py);
`structured_data` is the JSON dict column, `model_used` has column default
`"gemini"`. -/
structure StructuringResult where
  document_id : String
  extracted_text : String
  structured_data : List (String × String)
  confidence_score : Option ℚ
  model_used : String
  status : String
  error_message : Option String
deriving DecidableEq

/-- `db.query(StructuringResult).filter(... document_id ...).first()` -/
def findStructuring (db : List StructuringResult) (d : String) : Option StructuringResult :=
  db.find? (fun r => r.document_id == d)

/-- `InformationStructuringService.trigger_risk_prediction_service`: POSTs
to the risk-prediction internal route; non-200 responses are only logged
and exceptions are caught, so the call never raises. -/
def trigger_risk_prediction_service (outcome : HttpOutcome) : Except String Unit :=
  match outcome with
  | .ok _code => .ok ()
  | .exn _msg => .ok ()

/-- `InformationStructuringService.structure_document`.
`transform` abstracts the outcome of `extract_structured_data` (the only
raising step of the `try` block after the initial row lookup). When a row
already exists and the transformation succeeds, the source updates the row
in place and returns early — no status notification and no downstream
trigger. On a fresh success it inserts the row, notifies ingestion
(document status `structured`) and triggers risk-prediction. On any
exception it notifies ingestion with document status `parsed`, marks the
row `failed` (updating in place when one exists, else inserting an error
row with an empty dict), and returns the row without re-raising. -/
def structure_document (d text : String) (transform : Except String StructuredData)
    (notifyDelivery triggerOutcome : HttpOutcome)
    (db : List StructuringResult) :
    List StructuringResult × List NotifyEvent × StructuringResult :=
  match findStructuring db d, transform with
  | some _, .ok sd =>
    let db2 := updateFirst (fun r => r.document_id == d)
      (fun r =>
        { r with extracted_text := text, structured_data := sd.dict,
                 status := "completed", error_message := none }) db
    let row := (findStructuring db2 d).getD
      { document_id := d, extracted_text := text, structured_data := sd.dict,
        confidence_score := none, model_used := "gemini",
        status := "completed", error_message := none }
    (db2, [], row)
  | none, .ok sd =>
    let confidence := calculate_confidence_score sd
    let row : StructuringResult :=
      { document_id := d, extracted_text := text, structured_data := sd.dict,
        confidence_score := some confidence, model_used := "gemini",
        status := "completed", error_message := none }
    let db2 := db ++ [row]
    match send_update_document_status notifyDelivery d "information_structuring"
        "structured" "completed" none with
    | .error e =>
      -- unreachable: the notification helper never raises
      let errRow : StructuringResult :=
        { document_id := d, extracted_text := text, structured_data := [],
          confidence_score := none, model_used := "gemini",
          status := "failed", error_message := some e }
      (db2 ++ [errRow], [], errRow)
    | .ok events =>
      match trigger_risk_prediction_service triggerOutcome with
      | .error e =>
        -- unreachable: the trigger swallows every downstream failure
        let errRow : StructuringResult :=
          { document_id := d, extracted_text := text, structured_data := [],
            confidence_score := none, model_used := "gemini",
            status := "failed", error_message := some e }
        (db2 ++ [errRow], events, errRow)
      | .ok _ => (db2, events, row)
  | some _, .error e =>
    let events := (send_update_document_status notifyDelivery d
      "information_structuring" "parsed" "failed" (some e)).toOption.getD []
    let db2 := updateFirst (fun r => r.document_id == d)
      (fun r => { r with status := "failed", error_message := some e }) db
    let row := (findStructuring db2 d).getD
      { document_id := d, extracted_text := text, structured_data := [],
        confidence_score := none, model_used := "gemini",
        status := "failed", error_message := some e }
    (db2, events, row)
  | none, .error e =>
    let events := (send_update_document_status notifyDelivery d
      "information_structuring" "parsed" "failed" (some e)).toOption.getD []
    let errRow : StructuringResult :=
      { document_id := d, extracted_text := text, structured_data := [],
        confidence_score := none, model_used := "gemini",
        status := "failed", error_message := some e }
    (db ++ [errRow], events, errRow)

/-! ## Risk-prediction service (backend/risk-prediction) -/

/-- `RISK_THRESHOLDS` lookup table (app/config.py): risk bucket to the
list of predicted BI-RADS labels it covers. -/
def RISK_THRESHOLDS : List (String × List String) :=
  [("high", ["4", "5", "6"]),
   ("medium", ["3"]),
   ("low", ["1", "2"]),
   ("needs_assessment", ["0"])]

/-- Row of the `predictions` table, as far as deletion is concerned. -/
structure PredictionRow where
  document_id : String
  predicted_birads : String
  risk_level : String
deriving DecidableEq

/-- Removes the first row matching `p` (models `query(...).first()`
followed by `db.delete(row)`). -/
def removeFirst (p : α → Bool) : List α → List α
  | [] => []
  | x :: xs => if p x then xs else x :: removeFirst p xs

/-- `delete_prediction_internal` (app/routes/predictions.py): deletes the
first prediction row for the document when one exists. -/
def delete_prediction_internal (d : String)
    (predictions : List PredictionRow) : List PredictionRow :=
  removeFirst (fun pr => pr.document_id == d) predictions

/-! ## Document-ingestion service (backend/document-ingestion) -/

/-- Row of the `documents` table (app/models/database.py). -/
structure Document where
  id : String
  filename : String
  original_filename : String
  file_path : String
  file_size : Nat
  content_type : String
  uploader_id : String
  status : String
deriving DecidableEq

/-- Row of the `processing_status` table: the append-only status ledger. -/
structure ProcessingStatus where
  document_id : String
  service_name : String
  status : String
  error_message : Option String
deriving DecidableEq

/-- Mutable state owned by the ingestion service: documents table,
processing-status ledger, and the stored upload files (by path). -/
structure IngestionState where
  documents : List Document
  processing : List ProcessingStatus
  files : List String
deriving DecidableEq

/-- `DocumentService.get_document`. -/
def get_document (st : IngestionState) (d : String) : Option Document :=
  st.documents.find? (fun doc => doc.id == d)

/-- `DocumentService.update_document_status` (ingestion side): sets the
coarse status of the document row, returning whether it existed. -/
def ingestion_update_document_status (st : IngestionState) (d status : String) :
    IngestionState × Bool :=
  match get_document st d with
  | none => (st, false)
  | some _ =>
    let docs := updateFirst (fun doc => doc.id == d)
      (fun doc => { doc with status := status }) st.documents
    ({ st with documents := docs }, true)

/-- `DocumentService.add_processing_status`: appends a ledger row. -/
def add_processing_status (st : IngestionState) (d service status : String)
    (err : Option String) : IngestionState :=
  { st with processing := st.processing ++
      [{ document_id := d, service_name := service, status := status,
         error_message := err }] }

/-- Effect of one delivered stage notification on the ingestion service:
the POST to `/documents/update-status-internal` appends a
`ProcessingStatus` row, then the PATCH to
`/documents/{id}/status-internal` sets the document's coarse status. -/
def applyNotify (st : IngestionState) (ev : NotifyEvent) : IngestionState :=
  let st1 := add_processing_status st ev.document_id ev.service_name
    ev.processing_status ev.error_message
  (ingestion_update_document_status st1 ev.document_id ev.doc_status).1

/-- Applies a list of delivered notifications in order. -/
def applyNotifies (st : IngestionState) (evs : List NotifyEvent) : IngestionState :=
  evs.foldl applyNotify st

/-- FastAPI `HTTPException`, by status code and detail. -/
structure HTTPError where
  status_code : Nat
  detail : String
deriving DecidableEq

/-- Upload limits and whitelists (app/config.py of document-ingestion). -/
def MAX_FILE_SIZE : Nat := 10 * 1024 * 1024

def ALLOWED_EXTENSIONS : List String :=
  [".pdf", ".docx", ".png", ".jpg", ".jpeg", ".tiff", ".tif"]

def ALLOWED_MIME_TYPES : List String :=
  ["application/pdf",
   "application/vnd.openxmlformats-officedocument.wordprocessingml.document",
   "image/png", "image/jpeg", "image/tiff"]

/-- `pathlib.PurePath(name).suffix`: the extension from the last dot, or
`""` when the name has no dot, starts with its only dot, or ends in one. -/
def pathSuffix (name : String) : String :=
  let cs := name.toList
  match ((List.range cs.length).filter (fun i => cs.get? i = some '.')).getLast? with
  | none => ""
  | some i => if 0 < i ∧ i < cs.length - 1 then String.mk (cs.drop i) else ""

/-- The relevant attributes of a FastAPI `UploadFile`: `filename = none`
models a missing filename, `size = none` an unknown size. -/
structure UploadFileInfo where
  filename : Option String
  size : Option Nat
deriving DecidableEq

/-- `validate_file_size` (app/utils/validation.py): raises 413 only when
the size is known, non-zero and above the limit. -/
def validate_file_size (size : Option Nat) : Except HTTPError Unit :=
  match size with
  | some n => if n ≠ 0 ∧ MAX_FILE_SIZE < n then .error ⟨413, "File too large"⟩ else .ok ()
  | none => .ok ()

/-- `validate_file_extension`: 400 when the lowercased suffix is not
whitelisted. -/
def validate_file_extension (filename : String) : Except HTTPError Unit :=
  let extension := pyLower (pathSuffix filename)
  if ALLOWED_EXTENSIONS.contains extension then .ok ()
  else .error ⟨400, "File type not allowed"⟩

/-- `validate_file_content`: with libmagic available, 400 when the detected
MIME type is not whitelisted; without libmagic, falls back to guessing the
MIME type from the filename and never raises. -/
def validate_file_content (magicAvailable : Bool) (detectedMime : String)
    (filename : Option String) : Except HTTPError String :=
  if magicAvailable then
    if ALLOWED_MIME_TYPES.contains detectedMime then .ok detectedMime
    else .error ⟨400, "File content not allowed"⟩
  else
    .ok (match filename with
      | some nm =>
        let low := pyLower nm
        if low.endsWith ".pdf" then "application/pdf"
        else if low.endsWith ".jpg" || low.endsWith ".jpeg" then "image/jpeg"
        else if low.endsWith ".png" then "image/png"
        else "application/octet-stream"
      | none => "application/octet-stream")

/-- `validate_upload_file`: filename presence, then size, then extension,
then content checks, in that order. -/
def validate_upload_file (f : UploadFileInfo) (magicAvailable : Bool)
    (detectedMime : String) : Except HTTPError String :=
  match f.filename with
  | none => .error ⟨400, "No filename provided"⟩
  | some nm =>
    if nm = "" then .error ⟨400, "No filename provided"⟩
    else
      match validate_file_size f.size with
      | .error e => .error e
      | .ok _ =>
        match validate_file_extension nm with
        | .error e => .error e
        | .ok _ => validate_file_content magicAvailable detectedMime (some nm)

/-- `POST /documents/upload` (app/routes/documents.py) composed with
`DocumentService.upload_document`: validation happens before any state is
touched; on success the file is stored, the `Document` row (status
`uploaded`) and the initial `ProcessingStatus` row are created, and the
parsing service is triggered best-effort (a failed trigger only appends a
`failed` ledger row, it does not fail the upload). -/
def upload_document_route (st : IngestionState) (f : UploadFileInfo)
    (magicAvailable : Bool) (detectedMime : String)
    (docId newPath uniqueName uploader : String) (fileSize : Nat)
    (parsingTrigger : HttpOutcome) :
    IngestionState × Except HTTPError Document :=
  match validate_upload_file f magicAvailable detectedMime with
  | .error e => (st, .error e)
  | .ok mime =>
    let document : Document :=
      { id := docId, filename := uniqueName,
        original_filename := f.filename.getD "",
        file_path := newPath, file_size := fileSize, content_type := mime,
        uploader_id := uploader, status := "uploaded" }
    let st1 := { st with files := st.files ++ [newPath] }
    let st2 := { st1 with documents := st1.documents ++ [document] }
    let st3 := add_processing_status st2 docId "document_ingestion" "completed" none
    let st4 :=
      match parsingTrigger with
      | .ok 200 => add_processing_status st3 docId "document_parsing" "processing" none
      | .ok code =>
        add_processing_status st3 docId "document_parsing" "failed"
          (some ("HTTP " ++ toString code))
      | .exn msg => add_processing_status st3 docId "document_parsing" "failed" (some msg)
    (st4, .ok document)

/-! ## Cross-service deletion cascade -/

/-- The durable state of the whole pipeline that deletion touches: the
ingestion service's state plus each downstream service's result table and
output files (output files keyed by document id). -/
structure PipelineState where
  ingestion : IngestionState
  parsingResults : List ParsingResult
  parsedFiles : List String
  structuringResults : List StructuringResult
  structuredFiles : List String
  predictions : List PredictionRow
deriving DecidableEq

/-- `delete_parsing_result_internal` (document-parsing app/routes/parsing.py):
deletes the parsing row for the document and its parsed output file. -/
def delete_parsing_result_internal (d : String) (results : List ParsingResult)
    (parsedFiles : List String) : List ParsingResult × List String :=
  (removeFirst (fun r => r.document_id == d) results,
   parsedFiles.filter (fun f => !(f == d)))

/-- `DocumentService.delete_document` (+ `DELETE /documents/{id}` route):
for a missing document returns failure and changes nothing; otherwise
bulk-deletes the document's `ProcessingStatus` rows, unlinks the stored
upload and the parsed/structured output files, deletes the `Document` row,
then fires best-effort DELETEs at the parsing service (whose
delete-internal route exists) and at the structuring service — which has
no delete-internal route, so that call 404s and deletes nothing. The
risk-prediction service's `delete_prediction_internal` route is never
invoked. -/
def delete_document (st : PipelineState) (d : String)
    (parsingDelivery structuringDelivery : HttpOutcome) :
    PipelineState × Bool :=
  match get_document st.ingestion d with
  | none => (st, false)
  | some doc =>
    let ing1 := { st.ingestion with
      processing := st.ingestion.processing.filter (fun p => !(p.document_id == d)) }
    let ing2 := { ing1 with files := ing1.files.filter (fun f => !(f == doc.file_path)) }
    let parsedFiles1 := st.parsedFiles.filter (fun f => !(f == d))
    let structuredFiles1 := st.structuredFiles.filter (fun f => !(f == d))
    let ing3 := { ing2 with documents := removeFirst (fun x => x.id == d) ing2.documents }
    let remoteParsing :=
      match parsingDelivery with
      | .ok _ => delete_parsing_result_internal d st.parsingResults parsedFiles1
      | .exn _ => (st.parsingResults, parsedFiles1)
    let structuring1 :=
      match structuringDelivery with
      | .ok _ => st.structuringResults   -- route absent: 404, nothing deleted
      | .exn _ => st.structuringResults
    let predictions1 := st.predictions   -- never contacted
    ({ ingestion := ing3, parsingResults := remoteParsing.1,
       parsedFiles := remoteParsing.2,
       structuringResults := structuring1, structuredFiles := structuredFiles1,
       predictions := predictions1 }, true)

/-! ## Generic lemmas about the upsert / update-first-row primitives -/

theorem countP_upsertFirst (p : α → Bool) (upd : α → α) (new : α)
    (hnew : p new = true) (hupd : ∀ x, p x = true → p (upd x) = true) :
    ∀ l : List α, (upsertFirst p upd new l).countP p = max (l.countP p) 1
  | [] => by simp [upsertFirst, hnew]
  | x :: xs => by
    by_cases hx : p x = true
    · simp [upsertFirst, hx, hupd x hx, List.countP_cons]
    · have hx' : p x = false := by simpa using hx
      simp [upsertFirst, hx', List.countP_cons,
        countP_upsertFirst p upd new hnew hupd xs]

theorem find?_upsertFirst (p : α → Bool) (upd : α → α) (new : α)
    (hnew : p new = true) (hupd : ∀ x, p x = true → p (upd x) = true)
    (Q : α → Prop) (hQnew : Q new) (hQupd : ∀ x, p x = true → Q (upd x)) :
    ∀ l : List α, ∃ r, (upsertFirst p upd new l).find? p = some r ∧ Q r
  | [] => ⟨new, by simp [upsertFirst, List.find?_cons_of_pos _ hnew], hQnew⟩
  | x :: xs => by
    by_cases hx : p x = true
    · exact ⟨upd x, by
        simp [upsertFirst, hx, List.find?_cons_of_pos _ (hupd x hx)], hQupd x hx⟩
    · have hx' : p x = false := by simpa using hx
      obtain ⟨r, hr, hQ⟩ := find?_upsertFirst p upd new hnew hupd Q hQnew hQupd xs
      exact ⟨r, by simp [upsertFirst, hx', List.find?_cons_of_neg _ hx, hr], hQ⟩

theorem countP_updateFirst (p : α → Bool) (upd : α → α)
    (hupd : ∀ x, p x = true → p (upd x) = true) :
    ∀ l : List α, (updateFirst p upd l).countP p = l.countP p
  | [] => by simp [updateFirst]
  | x :: xs => by
    by_cases hx : p x = true
    · simp [updateFirst, hx, hupd x hx, List.countP_cons]
    · have hx' : p x = false := by simpa using hx
      simp [updateFirst, hx', List.countP_cons,
        countP_updateFirst p upd hupd xs]

theorem find?_updateFirst (p : α → Bool) (upd : α → α)
    (hupd : ∀ x, p x = true → p (upd x) = true)
    (Q : α → Prop) (hQupd : ∀ x, p x = true → Q (upd x)) :
    ∀ l : List α, (l.find? p).isSome = true →
      ∃ r, (updateFirst p upd l).find? p = some r ∧ Q r
  | [], h => by simp at h
  | x :: xs, h => by
    by_cases hx : p x = true
    · exact ⟨upd x, by
        simp [updateFirst, hx, List.find?_cons_of_pos _ (hupd x hx)], hQupd x hx⟩
    · have hx' : p x = false := by simpa using hx
      have hxs : (xs.find? p).isSome = true := by
        simpa [List.find?_cons_of_neg _ hx] using h
      obtain ⟨r, hr, hQ⟩ := find?_updateFirst p upd hupd Q hQupd xs hxs
      exact ⟨r, by simp [updateFirst, hx', List.find?_cons_of_neg _ hx, hr], hQ⟩

theorem find?_append_none (p : α → Bool) (l₁ l₂ : List α)
    (h : l₁.find? p = none) : (l₁ ++ l₂).find? p = l₂.find? p := by
  induction l₁ with
  | nil => simp
  | cons x xs ih =>
    by_cases hx : p x = true
    · simp [List.find?_cons_of_pos _ hx] at h
    · have hx' : ¬ p x = true := hx
      simp only [List.find?_cons_of_neg _ hx'] at h
      simpa [List.find?_cons_of_neg _ hx'] using ih h

theorem countP_eq_zero_of_find?_eq_none (p : α → Bool) (l : List α)
    (h : l.find? p = none) : l.countP p = 0 := by
  rw [List.countP_eq_zero]
  intro x hx
  exact List.find?_eq_none.mp h x hx

theorem countP_pos_of_find?_isSome (p : α → Bool) (l : List α)
    (h : (l.find? p).isSome = true) : 1 ≤ l.countP p := by
  rw [List.find?_isSome] at h
  obtain ⟨x, hx, hpx⟩ := h
  have := List.countP_pos_iff (p := p) (l := l) |>.mpr ⟨x, hx, hpx⟩
  omega

theorem find?_isSome_of_countP_pos (p : α → Bool) (l : List α)
    (h : 1 ≤ l.countP p) : (l.find? p).isSome = true := by
  rw [List.find?_isSome]
  have := List.countP_pos_iff (p := p) (l := l) |>.mp (by omega)
  obtain ⟨x, hx, hpx⟩ := this
  exact ⟨x, hx, hpx⟩

/-! ## Helper lemmas about the two submit operations -/

theorem countP_progress_foldl (d : String) (steps : List (String × Nat)) :
    ∀ db : List ParsingResult,
      (steps.foldl (fun acc s => update_parsing_progress d s.1 s.2 acc) db).countP
          (fun r => r.document_id == d) = db.countP (fun r => r.document_id == d) ∨
      (steps.foldl (fun acc s => update_parsing_progress d s.1 s.2 acc) db).countP
          (fun r => r.document_id == d) = max (db.countP (fun r => r.document_id == d)) 1 := by
  induction steps with
  | nil => intro db; left; rfl
  | cons s rest ih =>
    intro db
    have hstep : (update_parsing_progress d s.1 s.2 db).countP
        (fun r => r.document_id == d) = max (db.countP (fun r => r.document_id == d)) 1 := by
      apply countP_upsertFirst
      · simp
      · intro x hx; simpa using hx
    rcases ih (update_parsing_progress d s.1 s.2 db) with h | h <;>
      · right
        simp only [List.foldl_cons, h, hstep]
        try omega

theorem countP_parse_document_ok (d t : String) (steps : List (String × Nat))
    (nd td : HttpOutcome) (db : List ParsingResult) :
    ((parse_document d (.ok t) steps nd td db).1).countP (fun r => r.document_id == d)
      = max (db.countP (fun r => r.document_id == d)) 1 := by
  have hfinal : ∀ db1 : List ParsingResult,
      (upsertParsingCompleted d t db1).countP (fun r => r.document_id == d)
        = max (db1.countP (fun r => r.document_id == d)) 1 := by
    intro db1
    apply countP_upsertFirst
    · simp
    · intro x hx; simpa using hx
  rcases countP_progress_foldl d steps db with h | h <;>
    cases nd <;> cases td <;>
      · simp only [parse_document, send_update_document_status,
          trigger_structuring_service, hfinal, h]
        try omega

theorem parse_document_ok_result (d t : String) (steps : List (String × Nat))
    (nd td : HttpOutcome) (db : List ParsingResult) :
    ∃ r, (parse_document d (.ok t) steps nd td db).2.2 = .ok r ∧
      findParsing (parse_document d (.ok t) steps nd td db).1 d = some r ∧
      r.extracted_text = t ∧ r.status = "completed" ∧ r.progress = 100 ∧
      r.error_message = none := by
  obtain ⟨r, hr, hQ⟩ := find?_upsertFirst (fun r : ParsingResult => r.document_id == d)
    (fun r => { r with extracted_text := t, status := "completed",
                       progress := 100, error_message := none })
    { document_id := d, extracted_text := t, status := "completed",
      progress := 100, error_message := none }
    (by simp) (by intro x hx; simpa using hx)
    (fun r => r.extracted_text = t ∧ r.status = "completed" ∧ r.progress = 100 ∧
      r.error_message = none)
    (by simp) (by intro x hx; simp)
    (steps.foldl (fun acc s => update_parsing_progress d s.1 s.2 acc) db)
  refine ⟨r, ?_, ?_, hQ.1, hQ.2.1, hQ.2.2.1, hQ.2.2.2⟩ <;>
    cases nd <;> cases td <;>
      simp only [parse_document, send_update_document_status,
        trigger_structuring_service, findParsing, upsertParsingCompleted] at hr ⊢ <;>
      simp [hr]

theorem parse_document_error_result (d e : String) (steps : List (String × Nat))
    (nd td : HttpOutcome) (db : List ParsingResult) :
    (parse_document d (.error e) steps nd td db).2.2 = .error e ∧
    ∃ r, findParsing (parse_document d (.error e) steps nd td db).1 d = some r ∧
      r.status = "failed" ∧ r.error_message = some e ∧ r.extracted_text = "" := by
  obtain ⟨r, hr, hQ⟩ := find?_upsertFirst (fun r : ParsingResult => r.document_id == d)
    (fun r => { r with extracted_text := "", status := "failed",
                       progress := 0, error_message := some e })
    { document_id := d, extracted_text := "", status := "failed",
      progress := 0, error_message := some e }
    (by simp) (by intro x hx; simpa using hx)
    (fun r => r.status = "failed" ∧ r.error_message = some e ∧ r.extracted_text = "")
    (by simp) (by intro x hx; simp)
    (steps.foldl (fun acc s => update_parsing_progress d s.1 s.2 acc) db)
  refine ⟨by cases nd <;> cases td <;> rfl, r, ?_, hQ.1, hQ.2.1, hQ.2.2⟩
  cases nd <;> cases td <;>
    simpa only [parse_document, findParsing, upsertParsingFailed] using hr

theorem parse_document_error_events (d e : String) (code : Nat)
    (steps : List (String × Nat)) (td : HttpOutcome) (db : List ParsingResult) :
    (parse_document d (.error e) steps (.ok code) td db).2.1 =
      [{ document_id := d, service_name := "document_parsing",
         processing_status := "failed", doc_status := "uploaded",
         error_message := some e }] := by
  cases td <;> rfl

theorem countP_structure_document_ok (d text : String) (sd : StructuredData)
    (nd td : HttpOutcome) (db : List StructuringResult) :
    ((structure_document d text (.ok sd) nd td db).1).countP (fun r => r.document_id == d)
      = max (db.countP (fun r => r.document_id == d)) 1 := by
  cases h : List.find? (fun r : StructuringResult => r.document_id == d) db with
  | none =>
    have hzero : db.countP (fun r : StructuringResult => r.document_id == d) = 0 :=
      countP_eq_zero_of_find?_eq_none _ _ h
    cases nd <;> cases td <;>
      · simp only [structure_document, findStructuring, h, send_update_document_status,
          trigger_risk_prediction_service]
        simp [List.countP_append, hzero]
  | some ex =>
    have hpos : 1 ≤ db.countP (fun r : StructuringResult => r.document_id == d) :=
      countP_pos_of_find?_isSome _ _ (by simp [h])
    have hupd : (updateFirst (fun r : StructuringResult => r.document_id == d)
        (fun r =>
          { r with extracted_text := text, structured_data := sd.dict,
                   status := "completed", error_message := none }) db).countP
        (fun r => r.document_id == d) = db.countP (fun r => r.document_id == d) := by
      apply countP_updateFirst
      intro x hx; simpa using hx
    simp only [structure_document, findStructuring, h, hupd]
    omega

theorem structure_document_ok_result (d text : String) (sd : StructuredData)
    (nd td : HttpOutcome) (db : List StructuringResult) :
    (structure_document d text (.ok sd) nd td db).2.2.status = "completed" ∧
    (structure_document d text (.ok sd) nd td db).2.2.extracted_text = text ∧
    (structure_document d text (.ok sd) nd td db).2.2.structured_data = sd.dict ∧
    ∃ r, findStructuring (structure_document d text (.ok sd) nd td db).1 d = some r ∧
      r.extracted_text = text ∧ r.structured_data = sd.dict ∧ r.status = "completed" := by
  simp only [findStructuring]
  cases h : List.find? (fun r : StructuringResult => r.document_id == d) db with
  | none =>
    have hrow : List.find? (fun r : StructuringResult => r.document_id == d)
        ((structure_document d text (.ok sd) nd td db).1) =
        some { document_id := d, extracted_text := text, structured_data := sd.dict,
               confidence_score := some (calculate_confidence_score sd),
               model_used := "gemini", status := "completed", error_message := none } := by
      cases nd <;> cases td <;>
        · simp only [structure_document, findStructuring, h, send_update_document_status,
            trigger_risk_prediction_service]
          rw [find?_append_none _ _ _ h]
          simp
    exact ⟨by cases nd <;> cases td <;> simp only [structure_document, findStructuring, h,
        send_update_document_status, trigger_risk_prediction_service],
      by cases nd <;> cases td <;> simp only [structure_document, findStructuring, h,
        send_update_document_status, trigger_risk_prediction_service],
      by cases nd <;> cases td <;> simp only [structure_document, findStructuring, h,
        send_update_document_status, trigger_risk_prediction_service],
      _, hrow, rfl, rfl, rfl⟩
  | some ex =>
    obtain ⟨r, hr, hQ⟩ := find?_updateFirst (fun r : StructuringResult => r.document_id == d)
      (fun r =>
        { r with extracted_text := text, structured_data := sd.dict,
                 status := "completed", error_message := none })
      (by intro x hx; simpa using hx)
      (fun r => r.extracted_text = text ∧ r.structured_data = sd.dict ∧
        r.status = "completed")
      (by intro x hx; simp) db (by simp [h])
    simp only [structure_document, findStructuring, h, hr, Option.getD_some]
    exact ⟨hQ.2.2, hQ.1, hQ.2.1, r, rfl, hQ.1, hQ.2.1, hQ.2.2⟩

theorem structure_document_error_result (d text e : String)
    (nd td : HttpOutcome) (db : List StructuringResult) :
    (structure_document d text (.error e) nd td db).2.2.status = "failed" ∧
    (structure_document d text (.error e) nd td db).2.2.error_message = some e ∧
    ∃ r, findStructuring (structure_document d text (.error e) nd td db).1 d = some r ∧
      r.status = "failed" ∧ r.error_message = some e := by
  simp only [findStructuring]
  cases h : List.find? (fun r : StructuringResult => r.document_id == d) db with
  | none =>
    have hrow : List.find? (fun r : StructuringResult => r.document_id == d)
        ((structure_document d text (.error e) nd td db).1) =
        some { document_id := d, extracted_text := text, structured_data := [],
               confidence_score := none, model_used := "gemini",
               status := "failed", error_message := some e } := by
      simp only [structure_document, findStructuring, h]
      rw [find?_append_none _ _ _ h]
      simp
    exact ⟨by simp only [structure_document, findStructuring, h],
      by simp only [structure_document, findStructuring, h],
      _, hrow, rfl, rfl⟩
  | some ex =>
    obtain ⟨r, hr, hQ⟩ := find?_updateFirst (fun r : StructuringResult => r.document_id == d)
      (fun r => { r with status := "failed", error_message := some e })
      (by intro x hx; simpa using hx)
      (fun r => r.status = "failed" ∧ r.error_message = some e)
      (by intro x hx; simp) db (by simp [h])
    simp only [structure_document, findStructuring, h, hr, Option.getD_some]
    exact ⟨hQ.1, hQ.2, r, rfl, hQ.1, hQ.2⟩

theorem structure_document_error_events (d text e : String) (code : Nat)
    (td : HttpOutcome) (db : List StructuringResult) :
    (structure_document d text (.error e) (.ok code) td db).2.1 =
      [{ document_id := d, service_name := "information_structuring",
         processing_status := "failed", doc_status := "parsed",
         error_message := some e }] := by
  cases h : List.find? (fun r : StructuringResult => r.document_id == d) db <;>
    simp [structure_document, findStructuring, h, send_update_document_status,
      Except.toOption]

/-! ## Lemmas about confidence rounding and the mock extractor -/

theorem roundHalfEven_intCast (n : ℤ) : roundHalfEven (n : ℚ) = n := by
  simp only [roundHalfEven, Int.floor_intCast]
  norm_num

theorem pythonRound2_exact_of_int_mul (q : ℚ) (m : ℤ) (h : q * 100 = (m : ℚ)) :
    pythonRound2 q = q := by
  unfold pythonRound2
  rw [h, roundHalfEven_intCast, ← h]
  ring

theorem strContains_trans (a b c : String) (h₁ : strContains b c)
    (h₂ : strContains a b) : strContains a c :=
  List.IsInfix.trans h₁ h₂

theorem strContains_pyLower (a b : String) (h : strContains a b) :
    strContains (pyLower a) (String.mk (b.toList.map Char.toLower)) := by
  unfold strContains at h ⊢
  unfold pyLower
  exact List.IsInfix.map Char.toLower h

/-- In the rule-based mock extractor, a text containing "BI-RADS 2"
always yields `birads_score = "2"`. -/
theorem create_mock_birads_two (text : String)
    (h : strContains text "BI-RADS 2") :
    (create_mock_structured_data text).birads_score = "2" := by
  have hlow : strContains (pyLower text) "bi-rads 2" := by
    have := strContains_pyLower text "BI-RADS 2" h
    simpa using this
  have hb : strContains (pyLower text) "bi-rads" :=
    strContains_trans _ _ _ (by decide) hlow
  have h2 : strContains text "2" :=
    strContains_trans _ _ _ (by decide) h
  have step2 : ∀ m : StructuredData,
      (mockStepBirads text (pyLower text) m).birads_score = "2" := by
    intro m
    simp [mockStepBirads, hb, h2]
  have step3 : ∀ m : StructuredData,
      (mockStepDensity (pyLower text) m).birads_score = m.birads_score := by
    intro m
    unfold mockStepDensity
    split <;> [skip; rfl]
    split <;> [rfl; skip]
    split <;> rfl
  have step4 : ∀ m : StructuredData,
      (mockStepFollowup (pyLower text) m).birads_score = m.birads_score := by
    intro m
    unfold mockStepFollowup
    split <;> rfl
  have step5 : ∀ m : StructuredData,
      (mockStepFindings (pyLower text) m).birads_score = m.birads_score := by
    intro m
    unfold mockStepFindings
    split <;> rfl
  unfold create_mock_structured_data
  rw [step5, step4, step3, step2]

theorem countP_filter_not (p : α → Bool) (l : List α) :
    (l.filter (fun x => !(p x))).countP p = 0 := by
  rw [List.countP_eq_zero]
  intro x hx
  have := List.mem_filter.mp hx
  simpa using this.2

theorem applyNotify_single (st : IngestionState) (ev : NotifyEvent)
    (hdoc : (st.documents.find? (fun doc => doc.id == ev.document_id)).isSome = true) :
    (applyNotify st ev).processing = st.processing ++
      [{ document_id := ev.document_id, service_name := ev.service_name,
         status := ev.processing_status, error_message := ev.error_message }] ∧
    ∃ doc, get_document (applyNotify st ev) ev.document_id = some doc ∧
      doc.status = ev.doc_status := by
  obtain ⟨doc0, hdoc0⟩ := Option.isSome_iff_exists.mp hdoc
  obtain ⟨docr, hfind, hQ⟩ := find?_updateFirst (fun doc : Document => doc.id == ev.document_id)
    (fun doc => { doc with status := ev.doc_status })
    (by intro x hx; simpa using hx)
    (fun doc => doc.status = ev.doc_status)
    (by intro x hx; simp) st.documents hdoc
  constructor
  · simp only [applyNotify, add_processing_status, ingestion_update_document_status,
      get_document, hdoc0]
  · refine ⟨docr, ?_, hQ⟩
    simp only [applyNotify, add_processing_status, ingestion_update_document_status,
      get_document, hdoc0, hfind]

/-- C4: for every `StructuredData` value, with N = 20 the number of fields
of its dict and K the number of fields equal to the string "unknown"
(0 ≤ K ≤ N), `calculate_confidence_score` returns exactly
`round((N − K) / N, 2)` (Python semantics, banker's rounding); the value
is moreover exactly `(N − K) / N`, and the derivation is a pure function
of the input. -/
theorem confidence_determinism (s : StructuredData) :
    s.dict.length = 20 ∧
    unknownCount s ≤ 20 ∧
    calculate_confidence_score s =
      pythonRound2 (((20 : ℚ) - (unknownCount s : ℚ)) / 20) ∧
    calculate_confidence_score s = ((20 : ℚ) - (unknownCount s : ℚ)) / 20 := by
  have hlen : s.dict.length = 20 := rfl
  have hK : unknownCount s ≤ 20 := by
    have := List.length_filter_le (fun p : String × String => p.2 == "unknown") s.dict
    simpa [unknownCount, hlen] using this
  have heq : calculate_confidence_score s =
      pythonRound2 (((20 : ℚ) - (unknownCount s : ℚ)) / 20) := by
    simp only [calculate_confidence_score, unknownCount, hlen]
    congr 1
  have hexact : pythonRound2 (((20 : ℚ) - (unknownCount s : ℚ)) / 20)
      = ((20 : ℚ) - (unknownCount s : ℚ)) / 20 := by
    apply pythonRound2_exact_of_int_mul _ (5 * (20 - (unknownCount s : ℤ)))
    push_cast
    ring
  exact ⟨hlen, hK, heq, heq.trans hexact⟩

/-- C5: the fixed `RISK_THRESHOLDS` table maps every predicted label in
0–6 to exactly one bucket, and the buckets are exactly 4,5,6 → high,
3 → medium, 1,2 → low, 0 → needs_assessment. -/
theorem risk_bucket_total_coverage :
    (∀ label ∈ (["0", "1", "2", "3", "4", "5", "6"] : List String),
      (RISK_THRESHOLDS.filter (fun bucket => bucket.2.contains label)).length = 1) ∧
    (RISK_THRESHOLDS.filter (fun b => b.2.contains "4")).map Prod.fst = ["high"] ∧
    (RISK_THRESHOLDS.filter (fun b => b.2.contains "5")).map Prod.fst = ["high"] ∧
    (RISK_THRESHOLDS.filter (fun b => b.2.contains "6")).map Prod.fst = ["high"] ∧
    (RISK_THRESHOLDS.filter (fun b => b.2.contains "3")).map Prod.fst = ["medium"] ∧
    (RISK_THRESHOLDS.filter (fun b => b.2.contains "1")).map Prod.fst = ["low"] ∧
    (RISK_THRESHOLDS.filter (fun b => b.2.contains "2")).map Prod.fst = ["low"] ∧
    (RISK_THRESHOLDS.filter (fun b => b.2.contains "0")).map Prod.fst
      = ["needs_assessment"] := by
  decide

/-- C7: whatever the outcome of the fire-and-forget call to the next stage
(2xx, non-2xx, timeout or exception) and of the status notification, a
successful submit still returns its own `StageResult` with status
`completed` and no exception propagates, for both the parsing and the
structuring stage. -/
theorem propagation_isolation (dP tP : String) (steps : List (String × Nat))
    (ndP tdP : HttpOutcome) (dbP : List ParsingResult)
    (dS tS : String) (sd : StructuredData) (ndS tdS : HttpOutcome)
    (dbS : List StructuringResult) :
    (∃ r, (parse_document dP (.ok tP) steps ndP tdP dbP).2.2 = .ok r ∧
      r.status = "completed" ∧ r.extracted_text = tP ∧ r.progress = 100) ∧
    (structure_document dS tS (.ok sd) ndS tdS dbS).2.2.status = "completed" := by
  obtain ⟨r, hres, _, h1, h2, h3, _⟩ := parse_document_ok_result dP tP steps ndP tdP dbP
  exact ⟨⟨r, hres, h2, h1, h3⟩, (structure_document_ok_result dS tS sd ndS tdS dbS).1⟩

/-- C10: polling parsing progress for a document with no `ParsingResult`
row returns a 200 payload with status `pending`, progress 0 and a waiting
message instead of a 404; when a row exists the payload carries that row's
status and progress. -/
theorem progress_polling_never_404 (db : List ParsingResult) (d : String) :
    (findParsing db d = none →
      get_parsing_progress db d =
        { document_id := d, status := "pending", progress := 0,
          message := "Waiting to start parsing", error_message := none }) ∧
    (∀ r, findParsing db d = some r →
      (get_parsing_progress db d).status = r.status ∧
      (get_parsing_progress db d).progress = r.progress ∧
      (get_parsing_progress db d).error_message = r.error_message) := by
  constructor
  · intro h; simp [get_parsing_progress, h]
  · intro r h; simp [get_parsing_progress, h]

/-- Witness for C10 at the empty table and at a one-row table. -/
theorem progress_polling_never_404_witness :
    get_parsing_progress [] "doc-1" =
      { document_id := "doc-1", status := "pending", progress := 0,
        message := "Waiting to start parsing", error_message := none } :=
  (progress_polling_never_404 [] "doc-1").1 rfl

/-- C1: starting from a table satisfying the at-most-one-row invariant,
submitting the same document twice with the same successful input leaves
exactly one `StageResult` row for that (document, stage) — the second call
updates the row in place — and the row's final state is the latest call's
output, for both `parse_document` and `structure_document`. -/
theorem idempotent_upsert (d t text : String)
    (steps1 steps2 : List (String × Nat)) (nd1 td1 nd2 td2 : HttpOutcome)
    (dbP : List ParsingResult)
    (hP : dbP.countP (fun r => r.document_id == d) ≤ 1)
    (sd : StructuredData) (ndS1 tdS1 ndS2 tdS2 : HttpOutcome)
    (dbS : List StructuringResult)
    (hS : dbS.countP (fun r => r.document_id == d) ≤ 1) :
    ((parse_document d (.ok t) steps2 nd2 td2
        (parse_document d (.ok t) steps1 nd1 td1 dbP).1).1).countP
      (fun r => r.document_id == d) = 1 ∧
    (∃ r, findParsing (parse_document d (.ok t) steps2 nd2 td2
        (parse_document d (.ok t) steps1 nd1 td1 dbP).1).1 d = some r ∧
      r.extracted_text = t ∧ r.status = "completed" ∧ r.progress = 100) ∧
    ((structure_document d text (.ok sd) ndS2 tdS2
        (structure_document d text (.ok sd) ndS1 tdS1 dbS).1).1).countP
      (fun r => r.document_id == d) = 1 ∧
    (∃ r, findStructuring (structure_document d text (.ok sd) ndS2 tdS2
        (structure_document d text (.ok sd) ndS1 tdS1 dbS).1).1 d = some r ∧
      r.extracted_text = text ∧ r.structured_data = sd.dict ∧
      r.status = "completed") := by
  have hc1 := countP_parse_document_ok d t steps1 nd1 td1 dbP
  have hc2 := countP_parse_document_ok d t steps2 nd2 td2
    (parse_document d (.ok t) steps1 nd1 td1 dbP).1
  have hs1 := countP_structure_document_ok d text sd ndS1 tdS1 dbS
  have hs2 := countP_structure_document_ok d text sd ndS2 tdS2
    (structure_document d text (.ok sd) ndS1 tdS1 dbS).1
  obtain ⟨r, -, hfind, h1, h2, h3, -⟩ := parse_document_ok_result d t steps2 nd2 td2
    (parse_document d (.ok t) steps1 nd1 td1 dbP).1
  obtain ⟨-, -, -, r2, hfind2, g1, g2, g3⟩ := structure_document_ok_result d text sd ndS2 tdS2
    (structure_document d text (.ok sd) ndS1 tdS1 dbS).1
  exact ⟨by omega, ⟨r, hfind, h1, h2, h3⟩, by omega, ⟨r2, hfind2, g1, g2, g3⟩⟩

/-- Witness for C1: two submits of "doc-1" against initially empty tables
leave exactly one row in each stage's table. -/
theorem idempotent_upsert_witness :
    ((parse_document "doc-1" (.ok "REPORT TEXT") [] (.ok 200) (.ok 200)
        (parse_document "doc-1" (.ok "REPORT TEXT") [] (.ok 200) (.ok 200) []).1).1).countP
      (fun r => r.document_id == "doc-1") = 1 ∧
    ((structure_document "doc-1" "REPORT TEXT" (.ok {}) (.ok 200) (.ok 200)
        (structure_document "doc-1" "REPORT TEXT" (.ok {}) (.ok 200) (.ok 200) []).1).1).countP
      (fun r => r.document_id == "doc-1") = 1 :=
  ⟨(idempotent_upsert "doc-1" "REPORT TEXT" "REPORT TEXT" [] []
      (.ok 200) (.ok 200) (.ok 200) (.ok 200) [] (by decide)
      {} (.ok 200) (.ok 200) (.ok 200) (.ok 200) [] (by decide)).1,
   (idempotent_upsert "doc-1" "REPORT TEXT" "REPORT TEXT" [] []
      (.ok 200) (.ok 200) (.ok 200) (.ok 200) [] (by decide)
      {} (.ok 200) (.ok 200) (.ok 200) (.ok 200) [] (by decide)).2.2.1⟩

/-- C2 (amended): on a transformation failure, `structure_document`
persists the row as `failed` with the error text and returns it without
re-raising; `parse_document` also persists the `failed` row with the
error text, but then re-raises the exception to its caller instead of
returning the persisted row. -/
theorem submit_error_containment (d text e : String) (steps : List (String × Nat))
    (ndP tdP ndS tdS : HttpOutcome) (dbP : List ParsingResult)
    (dbS : List StructuringResult) :
    ((structure_document d text (.error e) ndS tdS dbS).2.2.status = "failed" ∧
     (structure_document d text (.error e) ndS tdS dbS).2.2.error_message = some e ∧
     ∃ r, findStructuring (structure_document d text (.error e) ndS tdS dbS).1 d
         = some r ∧ r.status = "failed" ∧ r.error_message = some e) ∧
    ((parse_document d (.error e) steps ndP tdP dbP).2.2 = .error e ∧
     ∃ r, findParsing (parse_document d (.error e) steps ndP tdP dbP).1 d = some r ∧
       r.status = "failed" ∧ r.error_message = some e) := by
  refine ⟨structure_document_error_result d text e ndS tdS dbS, ?_, ?_⟩
  · exact (parse_document_error_result d e steps ndP tdP dbP).1
  · obtain ⟨-, r, h1, h2, h3, -⟩ := parse_document_error_result d e steps ndP tdP dbP
    exact ⟨r, h1, h2, h3⟩

/-- Counterexample for C2 as stated: on a failing transformation for
"doc-1", `parse_document` persists the failed row but the call itself
evaluates to the re-raised exception, not to the persisted row. -/
theorem submit_error_containment_counterexample :
    (parse_document "doc-1" (.error "ocr failure") [] (.ok 200) (.ok 200) []).2.2
      = .error "ocr failure" ∧
    (parse_document "doc-1" (.error "ocr failure") [] (.ok 200) (.ok 200) []).1
      = [{ document_id := "doc-1", extracted_text := "", status := "failed",
           progress := 0, error_message := some "ocr failure" }] :=
  ⟨rfl, rfl⟩

/-- C3 (amended): on its own transformation failure a stage marks its
`StageResult` `failed` and notifies the ingestion service — appending a
`ProcessingStatus` row with status `failed` and the error text — but it
patches the document's coarse status back to the prior stage's value
(`uploaded` after a parsing failure, `parsed` after a structuring
failure), never to `failed`. -/
theorem failure_notification (d text e : String) (code : Nat)
    (steps : List (String × Nat)) (tdP tdS : HttpOutcome)
    (dbP : List ParsingResult) (dbS : List StructuringResult)
    (st : IngestionState)
    (hdoc : (st.documents.find? (fun doc => doc.id == d)).isSome = true) :
    (parse_document d (.error e) steps (.ok code) tdP dbP).2.1 =
      [{ document_id := d, service_name := "document_parsing",
         processing_status := "failed", doc_status := "uploaded",
         error_message := some e }] ∧
    (applyNotifies st (parse_document d (.error e) steps (.ok code) tdP dbP).2.1).processing
      = st.processing ++
        [{ document_id := d, service_name := "document_parsing",
           status := "failed", error_message := some e }] ∧
    (∃ doc, get_document
        (applyNotifies st (parse_document d (.error e) steps (.ok code) tdP dbP).2.1) d
        = some doc ∧ doc.status = "uploaded") ∧
    (structure_document d text (.error e) (.ok code) tdS dbS).2.1 =
      [{ document_id := d, service_name := "information_structuring",
         processing_status := "failed", doc_status := "parsed",
         error_message := some e }] ∧
    (∃ doc, get_document
        (applyNotifies st (structure_document d text (.error e) (.ok code) tdS dbS).2.1) d
        = some doc ∧ doc.status = "parsed") := by
  have hevP := parse_document_error_events d e code steps tdP dbP
  have hevS := structure_document_error_events d text e code tdS dbS
  have hP := applyNotify_single st
    { document_id := d, service_name := "document_parsing",
      processing_status := "failed", doc_status := "uploaded",
      error_message := some e } hdoc
  have hS := applyNotify_single st
    { document_id := d, service_name := "information_structuring",
      processing_status := "failed", doc_status := "parsed",
      error_message := some e } hdoc
  refine ⟨hevP, ?_, ?_, hevS, ?_⟩
  · rw [hevP]; exact hP.1
  · rw [hevP]; exact hP.2
  · rw [hevS]; exact hS.2

/-- Witness for C3 (amended) on a one-document ingestion state. -/
theorem failure_notification_witness :
    ((([{ id := "doc-1", filename := "f.pdf", original_filename := "f.pdf",
          file_path := "uploads/f.pdf", file_size := 10,
          content_type := "application/pdf", uploader_id := "u1",
          status := "uploaded" }] : List Document).find?
        (fun doc => doc.id == "doc-1")).isSome = true) ∧
    (parse_document "doc-1" (.error "ocr failure") [] (.ok 200) (.ok 200) []).2.1 =
      [{ document_id := "doc-1", service_name := "document_parsing",
         processing_status := "failed", doc_status := "uploaded",
         error_message := some "ocr failure" }] :=
  ⟨by decide,
   (failure_notification "doc-1" "TEXT" "ocr failure" 200 [] (.ok 200) (.ok 200) [] []
      { documents :=
          [{ id := "doc-1", filename := "f.pdf", original_filename := "f.pdf",
             file_path := "uploads/f.pdf", file_size := 10,
             content_type := "application/pdf", uploader_id := "u1",
             status := "uploaded" }],
        processing := [], files := ["uploads/f.pdf"] }
      (by decide)).1⟩

/-- Counterexample for C3 as stated: after a parsing failure for "doc-1"
is reported, the document's coarse status is "uploaded", not "failed". -/
theorem failure_notification_counterexample :
    (applyNotifies
      { documents :=
          [{ id := "doc-1", filename := "f.pdf", original_filename := "f.pdf",
             file_path := "uploads/f.pdf", file_size := 10,
             content_type := "application/pdf", uploader_id := "u1",
             status := "uploaded" }],
        processing := [], files := ["uploads/f.pdf"] }
      (parse_document "doc-1" (.error "ocr failure") [] (.ok 200) (.ok 200) []).2.1).documents.map
        Document.status = ["uploaded"] ∧ ("uploaded" : String) ≠ "failed" :=
  ⟨rfl, by decide⟩

/-- C6: with no Gemini API key configured, `extract_structured_data`
always takes the rule-based mock path regardless of the (never-contacted)
LLM outcome, and for any text containing "BI-RADS 2" it yields
`birads_score = "2"` (in particular not "unknown"); submitting that
extraction persists a `StructuringResult` with status `completed` — the
stage never fails purely because the key is absent. -/
theorem fallback_on_missing_llm_key (text : String) (llm : LLMOutcome)
    (h : strContains text "BI-RADS 2") (d : String) (nd td : HttpOutcome)
    (db : List StructuringResult) :
    extract_structured_data none llm text = create_mock_structured_data text ∧
    (extract_structured_data none llm text).birads_score = "2" ∧
    (extract_structured_data none llm text).birads_score ≠ "unknown" ∧
    (structure_document d text (.ok (extract_structured_data none llm text))
        nd td db).2.2.status = "completed" ∧
    (∃ r, findStructuring (structure_document d text
        (.ok (extract_structured_data none llm text)) nd td db).1 d = some r ∧
      r.status = "completed") := by
  have hmock : (extract_structured_data none llm text).birads_score = "2" :=
    create_mock_birads_two text h
  obtain ⟨h1, -, -, r, hr, -, -, hst⟩ :=
    structure_document_ok_result d text (extract_structured_data none llm text) nd td db
  exact ⟨rfl, hmock, by rw [hmock]; decide, h1, r, hr, hst⟩

/-- Witness for C6 on a concrete report text. -/
theorem fallback_on_missing_llm_key_witness :
    strContains "MAMMOGRAPHY REPORT. BI-RADS 2. Routine screening." "BI-RADS 2" ∧
    (extract_structured_data none .noCandidates
        "MAMMOGRAPHY REPORT. BI-RADS 2. Routine screening.").birads_score = "2" ∧
    (structure_document "doc-1" "MAMMOGRAPHY REPORT. BI-RADS 2. Routine screening."
        (.ok (extract_structured_data none .noCandidates
          "MAMMOGRAPHY REPORT. BI-RADS 2. Routine screening."))
        (.ok 200) (.ok 200) []).2.2.status = "completed" :=
  ⟨by decide,
   (fallback_on_missing_llm_key "MAMMOGRAPHY REPORT. BI-RADS 2. Routine screening."
      .noCandidates (by decide) "doc-1" (.ok 200) (.ok 200) []).2.1,
   (fallback_on_missing_llm_key "MAMMOGRAPHY REPORT. BI-RADS 2. Routine screening."
      .noCandidates (by decide) "doc-1" (.ok 200) (.ok 200) []).2.2.2.1⟩

/-- C8 (amended): for an existing document, `delete_document` removes its
`ProcessingStatus` rows, its stored upload file, its `Document` row, its
parsed/structured output files, and — best-effort, when the parsing
service is reachable — the parsing result row; the structuring service's
result rows survive (that service has no delete-internal route, so the
best-effort DELETE 404s) and the prediction service's rows survive (its
delete endpoint is never invoked). For a non-existent document id it
returns failure without deleting anything. -/
theorem deletion_cascade (st : PipelineState) (d : String)
    (pdel sdel : HttpOutcome) (doc : Document)
    (hdoc : get_document st.ingestion d = some doc) :
    (delete_document st d pdel sdel).2 = true ∧
    ((delete_document st d pdel sdel).1.ingestion.processing.countP
      (fun p => p.document_id == d)) = 0 ∧
    ((delete_document st d pdel sdel).1.ingestion.files.countP
      (fun f => f == doc.file_path)) = 0 ∧
    (delete_document st d pdel sdel).1.ingestion.documents =
      removeFirst (fun x => x.id == d) st.ingestion.documents ∧
    ((delete_document st d pdel sdel).1.parsedFiles.countP (fun f => f == d)) = 0 ∧
    ((delete_document st d pdel sdel).1.structuredFiles.countP (fun f => f == d)) = 0 ∧
    (∀ c, pdel = .ok c →
      (delete_document st d pdel sdel).1.parsingResults =
        removeFirst (fun r => r.document_id == d) st.parsingResults) ∧
    (delete_document st d pdel sdel).1.structuringResults = st.structuringResults ∧
    (delete_document st d pdel sdel).1.predictions = st.predictions ∧
    (∀ d2, get_document st.ingestion d2 = none →
      delete_document st d2 pdel sdel = (st, false)) := by
  refine ⟨?_, ?_, ?_, ?_, ?_, ?_, ?_, ?_, ?_, ?_⟩
  · simp only [delete_document, hdoc]
  · simp only [delete_document, hdoc]
    exact countP_filter_not _ _
  · simp only [delete_document, hdoc]
    exact countP_filter_not _ _
  · simp only [delete_document, hdoc]
  · simp only [delete_document, hdoc]
    cases pdel <;> simp [delete_parsing_result_internal, countP_filter_not]
  · simp only [delete_document, hdoc]
    exact countP_filter_not _ _
  · intro c hc
    subst hc
    simp only [delete_document, hdoc, delete_parsing_result_internal]
  · simp only [delete_document, hdoc]
    cases sdel <;> rfl
  · simp only [delete_document, hdoc]
  · intro d2 h2
    simp only [delete_document, h2]

/-- Witness for C8 (amended) on a one-document pipeline state. -/
theorem deletion_cascade_witness :
    get_document
      { documents :=
          [{ id := "doc-1", filename := "f.pdf", original_filename := "f.pdf",
             file_path := "uploads/f.pdf", file_size := 10,
             content_type := "application/pdf", uploader_id := "u1",
             status := "predicted" }],
        processing := [], files := ["uploads/f.pdf"] } "doc-1" =
      some { id := "doc-1", filename := "f.pdf", original_filename := "f.pdf",
             file_path := "uploads/f.pdf", file_size := 10,
             content_type := "application/pdf", uploader_id := "u1",
             status := "predicted" } ∧
    (delete_document
      { ingestion :=
          { documents :=
              [{ id := "doc-1", filename := "f.pdf", original_filename := "f.pdf",
                 file_path := "uploads/f.pdf", file_size := 10,
                 content_type := "application/pdf", uploader_id := "u1",
                 status := "predicted" }],
            processing := [], files := ["uploads/f.pdf"] },
        parsingResults := [], parsedFiles := [],
        structuringResults := [], structuredFiles := [],
        predictions := [] } "doc-1" (.ok 200) (.ok 200)).2 = true :=
  ⟨by decide,
   (deletion_cascade
      { ingestion :=
          { documents :=
              [{ id := "doc-1", filename := "f.pdf", original_filename := "f.pdf",
                 file_path := "uploads/f.pdf", file_size := 10,
                 content_type := "application/pdf", uploader_id := "u1",
                 status := "predicted" }],
            processing := [], files := ["uploads/f.pdf"] },
        parsingResults := [], parsedFiles := [],
        structuringResults := [], structuredFiles := [],
        predictions := [] } "doc-1" (.ok 200) (.ok 200)
      { id := "doc-1", filename := "f.pdf", original_filename := "f.pdf",
        file_path := "uploads/f.pdf", file_size := 10,
        content_type := "application/pdf", uploader_id := "u1",
        status := "predicted" } (by decide)).1⟩

/-- Counterexample for C8 as stated: deleting "doc-1" reports success but
leaves both the structuring result row and the prediction row in place. -/
theorem deletion_cascade_counterexample :
    (delete_document
      { ingestion :=
          { documents :=
              [{ id := "doc-1", filename := "f.pdf", original_filename := "f.pdf",
                 file_path := "uploads/f.pdf", file_size := 10,
                 content_type := "application/pdf", uploader_id := "u1",
                 status := "predicted" }],
            processing := [], files := ["uploads/f.pdf"] },
        parsingResults := [], parsedFiles := [],
        structuringResults :=
          [{ document_id := "doc-1", extracted_text := "t", structured_data := [],
             confidence_score := none, model_used := "gemini",
             status := "completed", error_message := none }],
        structuredFiles := [],
        predictions :=
          [{ document_id := "doc-1", predicted_birads := "2", risk_level := "low" }] }
      "doc-1" (.ok 200) (.ok 200)).2 = true ∧
    (delete_document
      { ingestion :=
          { documents :=
              [{ id := "doc-1", filename := "f.pdf", original_filename := "f.pdf",
                 file_path := "uploads/f.pdf", file_size := 10,
                 content_type := "application/pdf", uploader_id := "u1",
                 status := "predicted" }],
            processing := [], files := ["uploads/f.pdf"] },
        parsingResults := [], parsedFiles := [],
        structuringResults :=
          [{ document_id := "doc-1", extracted_text := "t", structured_data := [],
             confidence_score := none, model_used := "gemini",
             status := "completed", error_message := none }],
        structuredFiles := [],
        predictions :=
          [{ document_id := "doc-1", predicted_birads := "2", risk_level := "low" }] }
      "doc-1" (.ok 200) (.ok 200)).1.predictions =
      [{ document_id := "doc-1", predicted_birads := "2", risk_level := "low" }] ∧
    (delete_document
      { ingestion :=
          { documents :=
              [{ id := "doc-1", filename := "f.pdf", original_filename := "f.pdf",
                 file_path := "uploads/f.pdf", file_size := 10,
                 content_type := "application/pdf", uploader_id := "u1",
                 status := "predicted" }],
            processing := [], files := ["uploads/f.pdf"] },
        parsingResults := [], parsedFiles := [],
        structuringResults :=
          [{ document_id := "doc-1", extracted_text := "t", structured_data := [],
             confidence_score := none, model_used := "gemini",
             status := "completed", error_message := none }],
        structuredFiles := [],
        predictions :=
          [{ document_id := "doc-1", predicted_birads := "2", risk_level := "low" }] }
      "doc-1" (.ok 200) (.ok 200)).1.structuringResults =
      [{ document_id := "doc-1", extracted_text := "t", structured_data := [],
         confidence_score := none, model_used := "gemini",
         status := "completed", error_message := none }] :=
  ⟨rfl, rfl, rfl⟩

/-- C9: an upload whose input is structurally invalid — missing filename,
disallowed extension, disallowed detected content type (when libmagic is
available), or a known size over the limit — is rejected with a
4xx-equivalent `HTTPException` by `validate_upload_file`, and the upload
route then returns that error with the ingestion state unchanged: no file
stored, no `Document` row and no `ProcessingStatus` row created. -/
theorem validation_atomicity (st : IngestionState) (f : UploadFileInfo)
    (magic : Bool) (mime : String) (docId newPath uniqueName uploader : String)
    (fileSize : Nat) (trig : HttpOutcome) :
    (∀ e, validate_upload_file f magic mime = .error e →
      upload_document_route st f magic mime docId newPath uniqueName uploader
        fileSize trig = (st, .error e)) ∧
    (f.filename = none →
      ∃ e, validate_upload_file f magic mime = .error e ∧ e.status_code = 400) ∧
    (∀ nm n, f.filename = some nm → nm ≠ "" → f.size = some n → MAX_FILE_SIZE < n →
      ∃ e, validate_upload_file f magic mime = .error e ∧ e.status_code = 413) ∧
    (∀ nm, f.filename = some nm → nm ≠ "" → validate_file_size f.size = .ok () →
      ALLOWED_EXTENSIONS.contains (pyLower (pathSuffix nm)) = false →
      ∃ e, validate_upload_file f magic mime = .error e ∧ e.status_code = 400) ∧
    (∀ nm, f.filename = some nm → nm ≠ "" → validate_file_size f.size = .ok () →
      validate_file_extension nm = .ok () → magic = true →
      ALLOWED_MIME_TYPES.contains mime = false →
      ∃ e, validate_upload_file f magic mime = .error e ∧ e.status_code = 400) := by
  refine ⟨?_, ?_, ?_, ?_, ?_⟩
  · intro e he
    simp only [upload_document_route, he]
  · intro hnone
    exact ⟨⟨400, "No filename provided"⟩, by simp [validate_upload_file, hnone], rfl⟩
  · intro nm n hnm hne hsz hover
    refine ⟨⟨413, "File too large"⟩, ?_, rfl⟩
    have hsize : validate_file_size f.size = .error ⟨413, "File too large"⟩ := by
      rw [hsz]
      simp only [validate_file_size]
      rw [if_pos ⟨by omega, hover⟩]
    simp [validate_upload_file, hnm, hne, hsize]
  · intro nm hnm hne hsize hext
    refine ⟨⟨400, "File type not allowed"⟩, ?_, rfl⟩
    have hve : validate_file_extension nm = .error ⟨400, "File type not allowed"⟩ := by
      simp only [validate_file_extension, hext]
      rfl
    simp [validate_upload_file, hnm, hne, hsize, hve]
  · intro nm hnm hne hsize hext hmagic hmime
    refine ⟨⟨400, "File content not allowed"⟩, ?_, rfl⟩
    have hvc : validate_file_content magic mime (some nm) =
        .error ⟨400, "File content not allowed"⟩ := by
      subst hmagic
      simp only [validate_file_content, hmime]
      rfl
    simp [validate_upload_file, hnm, hne, hsize, hext, hvc]

/-- Witness for C9: a ".exe" upload is rejected with a 400 and leaves the
ingestion state untouched. -/
theorem validation_atomicity_witness :
    validate_upload_file { filename := some "report.exe", size := some 100 }
      true "application/pdf" = .error ⟨400, "File type not allowed"⟩ ∧
    upload_document_route { documents := [], processing := [], files := [] }
      { filename := some "report.exe", size := some 100 } true "application/pdf"
      "doc-1" "uploads/f" "f" "u1" 100 (.ok 200) =
      ({ documents := [], processing := [], files := [] },
       .error ⟨400, "File type not allowed"⟩) :=
  ⟨by rfl,
   (validation_atomicity { documents := [], processing := [], files := [] }
      { filename := some "report.exe", size := some 100 } true "application/pdf"
      "doc-1" "uploads/f" "f" "u1" 100 (.ok 200)).1
      ⟨400, "File type not allowed"⟩ (by rfl)⟩

end AuraHealth
